import Mathlib

/-!
Verification of the ZenML metadata control-plane core: the Store contracts,
the cache-eligibility evaluator, the lineage-graph builder, the resource
models and the example data-splitter step, shallowly embedded in Lean 4.
-/

namespace ZenML

/-- Error taxonomy of the Store (spec section 7): NotFoundError,
EntityExistsError, ConflictError, AuthorizationError, ValidationError.
The source interface docstrings use KeyError for NotFoundError, ValueError
for ConflictError and StackExistsError for EntityExistsError. -/
inductive StoreError
  | notFoundError
  | entityExistsError
  | conflictError
  | authorizationError
  | validationError
  deriving DecidableEq, Repr

/-- Execution status of a pipeline run (spec section 3: running, completed,
failed, cached; zenml.enums.ExecutionStatus is not under src/). -/
inductive ExecutionStatus
  | running
  | completed
  | failed
  | cached
  deriving DecidableEq, Repr

/- ----------------------------------------------------------------
Cache eligibility (src/src/zenml/steps/step_environment.py)
---------------------------------------------------------------- -/

/-- Modelled from the spec: zenml.orchestrators.cache_utils.is_cache_enabled
is not under src/ (only its caller StepEnvironment.cache_enabled is).
Resolution rule from the spec: if the step-level flag is set (enabled or
disabled) it wins; otherwise the pipeline-level flag applies. -/
def is_cache_enabled (step_enable_cache : Option Bool)
    (pipeline_enable_cache : Bool) : Bool :=
  match step_enable_cache with
  | some b => b
  | none => pipeline_enable_cache

/-- Pipeline-level configuration carried by StepRunInfo.pipeline: the
pipeline's name and its two-valued cache flag. -/
structure PipelineConfiguration where
  name : String
  enable_cache : Bool
  deriving DecidableEq, Repr

/-- Step-level configuration carried by StepRunInfo.config: the step's name
and its three-valued cache flag (enabled / disabled / unset). -/
structure StepConfiguration where
  name : String
  enable_cache : Option Bool
  deriving DecidableEq, Repr

/-- Info about the currently running step (zenml.config.step_run_info). -/
structure StepRunInfo where
  config : StepConfiguration
  pipeline : PipelineConfiguration
  run_name : String
  deriving DecidableEq, Repr

/-- StepEnvironment wraps a StepRunInfo
(src/src/zenml/steps/step_environment.py, __init__). -/
structure StepEnvironment where
  step_run_info : StepRunInfo
  deriving DecidableEq, Repr

/-- StepEnvironment.pipeline_name: the name of the currently running
pipeline. -/
def StepEnvironment.pipeline_name (env : StepEnvironment) : String :=
  env.step_run_info.pipeline.name

/-- StepEnvironment.run_name: the name of the current pipeline run. -/
def StepEnvironment.run_name (env : StepEnvironment) : String :=
  env.step_run_info.run_name

/-- StepEnvironment.pipeline_run_id: deprecated accessor; the source logs a
deprecation warning (a side effect on the logger only) and returns
self.run_name. -/
def StepEnvironment.pipeline_run_id (env : StepEnvironment) : String :=
  env.run_name

/-- StepEnvironment.step_name: the name of the currently running step. -/
def StepEnvironment.step_name (env : StepEnvironment) : String :=
  env.step_run_info.config.name

/-- StepEnvironment.cache_enabled: delegates to is_cache_enabled on the
step's enable_cache and the pipeline's enable_cache
(src/src/zenml/steps/step_environment.py lines 111-124). -/
def StepEnvironment.cache_enabled (env : StepEnvironment) : Bool :=
  is_cache_enabled env.step_run_info.config.enable_cache
    env.step_run_info.pipeline.enable_cache

/- ----------------------------------------------------------------
Evidently data splitter
(src/examples/evidently_drift_detection/steps/data_splitter/data_splitter_step.py)
---------------------------------------------------------------- -/

/-- A pandas DataFrame, modelled as its list of rows; each row carries its
index label (pandas preserves the original index labels under slicing)
together with the row payload. -/
abbrev DataFrame (α : Type) : Type := List (Nat × α)

/-- The evidently data_splitter step: returns
(input_df[100:], input_df[:100]), i.e. the rows from position 100 onward as
the reference dataset and the first 100 rows as the comparison dataset. -/
def data_splitter {α : Type} (input_df : DataFrame α) :
    DataFrame α × DataFrame α :=
  (List.drop 100 input_df, List.take 100 input_df)

/- ----------------------------------------------------------------
Pipeline models (src/src/zenml/models/pipeline_models.py)
---------------------------------------------------------------- -/

/-- Modelled from the spec: zenml.models.constants is not under src/; the
configured maximum length for model name fields. -/
def MODEL_NAME_FIELD_MAX_LENGTH : Nat := 255

/-- PipelineSpec (zenml.config.pipeline_configurations, not under src/):
an ordered list of step declarations. -/
structure PipelineSpec where
  steps : List String
  deriving DecidableEq, Repr

/-- Base model for pipelines: name (with max_length enforced), optional
docstring, and a PipelineSpec. -/
structure PipelineBaseModel where
  name : String
  docstring : Option String
  spec : PipelineSpec
  deriving DecidableEq, Repr

/-- Pydantic construction of a PipelineBaseModel: the name field carries
Field(max_length=MODEL_NAME_FIELD_MAX_LENGTH), so construction fails with
ValidationError for longer names, before any Store logic runs. -/
def PipelineBaseModel.construct (name : String) (docstring : Option String)
    (spec : PipelineSpec) : Except StoreError PipelineBaseModel :=
  if name.length ≤ MODEL_NAME_FIELD_MAX_LENGTH then
    Except.ok ⟨name, docstring, spec⟩
  else
    Except.error StoreError.validationError

/- ----------------------------------------------------------------
Store resources and operations
(src/src/zenml/zen_stores/zen_store_interface.py)
---------------------------------------------------------------- -/

/-- A stack component record: id, name and component type. -/
structure StackComponentRecord where
  id : Nat
  name : String
  ctype : String
  deriving DecidableEq, Repr

/-- A stack record: id, name, owning project and user, shared flag and the
ids of its member components. -/
structure StackRecord where
  id : Nat
  name : String
  project : Nat
  user : Nat
  is_shared : Bool
  components : List Nat
  deriving DecidableEq, Repr

/-- A pipeline record: id, name and owning project. -/
structure PipelineRecord where
  id : Nat
  name : String
  project : Nat
  deriving DecidableEq, Repr

/-- A pipeline run record, following PipelineRunRequestModel
(src/src/zenml/models/pipeline_run_models.py): the pipeline and stack
references are optional and become none when the parent is deleted. -/
structure PipelineRunRecord where
  id : Nat
  name : String
  status : ExecutionStatus
  pipeline_configuration : String
  pipeline : Option Nat
  stack : Option Nat
  deriving DecidableEq, Repr

/-- Modelled from the spec: the concrete Store implementations behind
ZenStoreInterface are not under src/ (only the abstract interface with its
docstring contracts is), so the store state is the in-memory map-backed
variant the spec's design notes prescribe. -/
structure Store where
  projects : List Nat
  components : List StackComponentRecord
  stack_records : List StackRecord
  pipelines : List PipelineRecord
  runs : List PipelineRunRecord
  deriving DecidableEq, Repr

/-- Modelled from the spec: get_stack retrieves the stack with the given id
and fails with NotFoundError (KeyError in the source docstring) when no
stack matches; it never returns a partial or null result. -/
def get_stack (s : Store) (stack_id : Nat) : Except StoreError StackRecord :=
  match s.stack_records.find? (fun st => st.id == stack_id) with
  | some st => Except.ok st
  | none => Except.error StoreError.notFoundError

/-- Modelled from the spec: get_run retrieves the pipeline run with the
given id and fails with NotFoundError when no run matches. -/
def get_run (s : Store) (run_id : Nat) : Except StoreError PipelineRunRecord :=
  match s.runs.find? (fun r => r.id == run_id) with
  | some r => Except.ok r
  | none => Except.error StoreError.notFoundError

/-- Modelled from the spec: delete_stack_component fails with NotFoundError
(KeyError) when the component is unknown and with ConflictError
(ValueError in the source docstring) when the component is part of one or
more stacks; otherwise it removes the component. An error leaves the store
unchanged by construction of the state-passing embedding. -/
def delete_stack_component (s : Store) (component_id : Nat) :
    Except StoreError Store :=
  match s.components.find? (fun c => c.id == component_id) with
  | none => Except.error StoreError.notFoundError
  | some _ =>
      if s.stack_records.any (fun st => st.components.contains component_id) then
        Except.error StoreError.conflictError
      else
        Except.ok { s with
          components := s.components.filter (fun c => c.id != component_id) }

/-- A stack update request: every field optional (absent = unchanged). -/
structure StackUpdateModel where
  name : Option String
  is_shared : Option Bool
  components : Option (List Nat)
  deriving DecidableEq, Repr

/-- Applying an update to a stack record: full replace of the mutable
fields the update sets; id, project and user are immutable. -/
def applyStackUpdate (st : StackRecord) (u : StackUpdateModel) : StackRecord :=
  { st with
    name := u.name.getD st.name
    is_shared := u.is_shared.getD st.is_shared
    components := u.components.getD st.components }

/-- Modelled from the spec: update_stack fails with NotFoundError when the
id is unknown; when the update sets the name it re-validates the scoped
uniqueness invariant (name, project, owner) and fails with
EntityExistsError if another stack in the same scope already uses that
name, mutating nothing; otherwise it applies the update. -/
def update_stack (s : Store) (stack_id : Nat) (u : StackUpdateModel) :
    Except StoreError Store :=
  match s.stack_records.find? (fun st => st.id == stack_id) with
  | none => Except.error StoreError.notFoundError
  | some st =>
      match u.name with
      | some newName =>
          if s.stack_records.any (fun o =>
              o.id != stack_id && o.project == st.project &&
              o.user == st.user && o.name == newName) then
            Except.error StoreError.entityExistsError
          else
            Except.ok { s with stack_records := s.stack_records.map (fun t =>
              if t.id == stack_id then applyStackUpdate t u else t) }
      | none =>
          Except.ok { s with stack_records := s.stack_records.map (fun t =>
            if t.id == stack_id then applyStackUpdate t u else t) }

/-- Modelled from the spec: delete_pipeline fails with NotFoundError when
the pipeline is unknown; on success it removes the pipeline record and
nulls the pipeline reference of every affected run, preserving run history
(PipelineRunRequestModel.pipeline is Optional for exactly this reason). -/
def delete_pipeline (s : Store) (pipeline_id : Nat) : Except StoreError Store :=
  match s.pipelines.find? (fun p => p.id == pipeline_id) with
  | none => Except.error StoreError.notFoundError
  | some _ =>
      Except.ok { s with
        pipelines := s.pipelines.filter (fun p => p.id != pipeline_id)
        runs := s.runs.map (fun r =>
          if r.pipeline == some pipeline_id then
            { r with pipeline := none }
          else r) }

/-- Filter model for list_stacks; every field optional, absence meaning no
constraint (zen_store_interface.list_stacks arguments). -/
structure StackFilterModel where
  project : Option Nat
  user : Option Nat
  component_id : Option Nat
  name : Option String
  is_shared : Option Bool
  deriving DecidableEq, Repr

/-- Whether a stack satisfies every set field of a filter. -/
def stackMatchesFilter (f : StackFilterModel) (st : StackRecord) : Bool :=
  (match f.project with | none => true | some p => st.project == p) &&
  (match f.user with | none => true | some u => st.user == u) &&
  (match f.component_id with
   | none => true
   | some c => st.components.contains c) &&
  (match f.name with | none => true | some n => st.name == n) &&
  (match f.is_shared with | none => true | some b => st.is_shared == b)

/-- Modelled from the spec and the source docstring: list_stacks returns
all stacks matching the filter criteria; per the source docstring it
raises KeyError (NotFoundError) when the filter names a project that does
not exist. -/
def list_stacks (s : Store) (f : StackFilterModel) :
    Except StoreError (List StackRecord) :=
  match f.project with
  | some p =>
      if s.projects.contains p then
        Except.ok (s.stack_records.filter (stackMatchesFilter f))
      else
        Except.error StoreError.notFoundError
  | none => Except.ok (s.stack_records.filter (stackMatchesFilter f))

/- ----------------------------------------------------------------
Lineage graph builder
(src/src/zenml/zen_server/routers/runs_endpoints.py, get_run_dag)
---------------------------------------------------------------- -/

/-- A lineage graph node: a step run or an artifact, tagged with type. -/
inductive LineageNode
  | step (id : Nat)
  | artifact (id : Nat)
  deriving DecidableEq, Repr

/-- The kind of a lineage edge: a step produced an artifact, or an
artifact is consumed by a step. -/
inductive LineageEdgeKind
  | produced
  | consumed
  deriving DecidableEq, Repr

/-- A directed lineage edge with its kind. -/
structure LineageEdge where
  source : LineageNode
  target : LineageNode
  kind : LineageEdgeKind
  deriving DecidableEq, Repr

/-- A step run as seen by the lineage graph builder: its id and the ids of
its input and output artifacts. -/
structure StepRunRecord where
  id : Nat
  input_artifacts : List Nat
  output_artifacts : List Nat
  deriving DecidableEq, Repr

/-- A lineage graph: its node list and edge list. -/
structure LineageGraph where
  nodes : List LineageNode
  edges : List LineageEdge
  deriving DecidableEq, Repr

/-- Modelled from the spec:
LineageGraph.generate_run_nodes_and_edges (zenml.post_execution.lineage)
is not under src/ (only its caller get_run_dag is). For each StepRun of the
run it adds a step node, its output artifacts with produced edges
(step to artifact) and its input artifacts with consumed edges (artifact
to step). -/
def generate_run_nodes_and_edges (steps : List StepRunRecord) : LineageGraph :=
  { nodes := steps.flatMap (fun s =>
      LineageNode.step s.id ::
        (s.output_artifacts.map LineageNode.artifact ++
          s.input_artifacts.map LineageNode.artifact))
    edges := steps.flatMap (fun s =>
      s.output_artifacts.map (fun a =>
        ⟨LineageNode.step s.id, LineageNode.artifact a,
          LineageEdgeKind.produced⟩) ++
      s.input_artifacts.map (fun a =>
        ⟨LineageNode.artifact a, LineageNode.step s.id,
          LineageEdgeKind.consumed⟩)) }

end ZenML

namespace ZenML

/-- Keyed lookup over an id-preserving transformation of a list: when the
keys are pairwise distinct, find? by a member's key returns that member's
image. -/
theorem find_map_eq_some_of_nodup_keys {α : Type} (f : α → Nat) (g : α → α)
    (hg : ∀ x, f (g x) = f x) :
    ∀ l : List α, (l.map f).Nodup → ∀ a ∈ l,
      (l.map g).find? (fun x => f x == f a) = some (g a) := by
  intro l
  induction l with
  | nil => intro _ a ha; cases ha
  | cons b t ih =>
      intro hnd a ha
      rw [List.map_cons, List.nodup_cons] at hnd
      rcases List.mem_cons.mp ha with rfl | hat
      · rw [List.map_cons]
        exact List.find?_cons_of_pos _ (by simp [hg])
      · rw [List.map_cons]
        have hne : (f (g b) == f a) = false := by
          simp only [hg, beq_eq_false_iff_ne, ne_eq]
          intro he
          exact hnd.1 (he ▸ List.mem_map_of_mem f hat)
        rw [List.find?_cons, hne]
        exact ih hnd.2 a hat

/-- Keyed lookup: when the keys of a list are pairwise distinct, find? by a
member's key returns that member. -/
theorem find_eq_some_of_nodup_keys {α : Type} (f : α → Nat) (l : List α)
    (hnd : (l.map f).Nodup) (a : α) (ha : a ∈ l) :
    l.find? (fun x => f x == f a) = some a := by
  have h := find_map_eq_some_of_nodup_keys f id (fun _ => rfl) l hnd a ha
  simpa using h

/-- Reading a run out of a store whose run lookup succeeds. -/
theorem get_run_eq_ok_of_find (s : Store) (run_id : Nat)
    (r : PipelineRunRecord)
    (h : s.runs.find? (fun x => x.id == run_id) = some r) :
    get_run s run_id = Except.ok r := by
  simp [get_run, h]

/-- Claim C1: cache eligibility is a pure function of the step-level flag and
the pipeline-level flag. If the step-level flag is enabled the result is
true regardless of the pipeline flag; if disabled the result is false
regardless of the pipeline flag; if unset the result equals the
pipeline-level flag; all 6 combinations are covered since the pipeline flag
is universally quantified in each conjunct. -/
theorem cache_enabled_truth_table (env : StepEnvironment) :
    (env.step_run_info.config.enable_cache = some true →
      env.cache_enabled = true) ∧
    (env.step_run_info.config.enable_cache = some false →
      env.cache_enabled = false) ∧
    (env.step_run_info.config.enable_cache = none →
      env.cache_enabled = env.step_run_info.pipeline.enable_cache) := by
  refine ⟨?_, ?_, ?_⟩ <;>
    intro h <;>
    simp [StepEnvironment.cache_enabled, is_cache_enabled, h]

/-- Witness for C1: the six concrete flag combinations, each discharged by
applying the truth-table theorem at a concrete StepEnvironment. -/
theorem cache_enabled_truth_table_witness :
    (StepEnvironment.cache_enabled ⟨⟨⟨"s", some true⟩, ⟨"p", true⟩, "r"⟩⟩ = true) ∧
    (StepEnvironment.cache_enabled ⟨⟨⟨"s", some true⟩, ⟨"p", false⟩, "r"⟩⟩ = true) ∧
    (StepEnvironment.cache_enabled ⟨⟨⟨"s", some false⟩, ⟨"p", true⟩, "r"⟩⟩ = false) ∧
    (StepEnvironment.cache_enabled ⟨⟨⟨"s", some false⟩, ⟨"p", false⟩, "r"⟩⟩ = false) ∧
    (StepEnvironment.cache_enabled ⟨⟨⟨"s", none⟩, ⟨"p", true⟩, "r"⟩⟩ = true) ∧
    (StepEnvironment.cache_enabled ⟨⟨⟨"s", none⟩, ⟨"p", false⟩, "r"⟩⟩ = false) :=
  ⟨(cache_enabled_truth_table _).1 rfl,
   (cache_enabled_truth_table _).1 rfl,
   (cache_enabled_truth_table _).2.1 rfl,
   (cache_enabled_truth_table _).2.1 rfl,
   (cache_enabled_truth_table _).2.2 rfl,
   (cache_enabled_truth_table _).2.2 rfl⟩

/-- Claim C10: the evidently data_splitter returns (rows from index 100
onward, first 100 rows); the comparison dataset has min(length, 100) rows,
the two outputs are disjoint (as row index labels, whenever the input's
labels are distinct, as with the default pandas RangeIndex), concatenating
comparison then reference reconstructs the input exactly, and for inputs
with at most 100 rows the reference dataset is empty. -/
theorem data_splitter_spec {α : Type} (df : DataFrame α) :
    (data_splitter df).2.length = min df.length 100 ∧
    (data_splitter df).2 ++ (data_splitter df).1 = df ∧
    (df.length ≤ 100 → (data_splitter df).1 = []) ∧
    ((df.map Prod.fst).Nodup →
      List.Disjoint ((data_splitter df).2.map Prod.fst)
        ((data_splitter df).1.map Prod.fst)) := by
  refine ⟨?_, ?_, ?_, ?_⟩
  · simp [data_splitter, List.length_take, Nat.min_comm]
  · exact df.take_append_drop 100
  · intro h
    simp [data_splitter, List.drop_eq_nil_of_le h]
  · intro hnd
    have h := df.take_append_drop 100
    rw [← h, List.map_append] at hnd
    exact List.disjoint_of_nodup_append hnd

/-- Witness for C10: the splitter evaluated on a concrete three-row
dataframe, with every hypothesis discharged concretely. -/
theorem data_splitter_spec_witness :
    (data_splitter [(0, "a"), (1, "b"), (2, "c")]).2.length =
      min ([(0, "a"), (1, "b"), (2, "c")] : DataFrame String).length 100 ∧
    (data_splitter [(0, "a"), (1, "b"), (2, "c")]).1 = ([] : DataFrame String) ∧
    List.Disjoint
      ((data_splitter [(0, "a"), (1, "b"), (2, "c")]).2.map Prod.fst)
      ((data_splitter [(0, "a"), (1, "b"), (2, "c")]).1.map Prod.fst) :=
  ⟨(data_splitter_spec [(0, "a"), (1, "b"), (2, "c")]).1,
   (data_splitter_spec [(0, "a"), (1, "b"), (2, "c")]).2.2.1 (by decide),
   (data_splitter_spec [(0, "a"), (1, "b"), (2, "c")]).2.2.2 (by decide)⟩

/-- Claim C6: constructing a pipeline base model with a name longer than the
configured maximum fails with ValidationError before any Store logic runs;
for every name at or under the limit, construction succeeds. -/
theorem pipeline_name_length_validation (name : String)
    (docstring : Option String) (spec : PipelineSpec) :
    (name.length > MODEL_NAME_FIELD_MAX_LENGTH →
      PipelineBaseModel.construct name docstring spec =
        Except.error StoreError.validationError) ∧
    (name.length ≤ MODEL_NAME_FIELD_MAX_LENGTH →
      PipelineBaseModel.construct name docstring spec =
        Except.ok ⟨name, docstring, spec⟩) := by
  refine ⟨fun h => ?_, fun h => ?_⟩
  · simp [PipelineBaseModel.construct, Nat.not_le.mpr h]
  · simp [PipelineBaseModel.construct, h]

set_option maxRecDepth 4096 in
/-- Witness for C6: a 256-character name is rejected with ValidationError
and a 3-character name is accepted, by the validation theorem. -/
theorem pipeline_name_length_validation_witness :
    PipelineBaseModel.construct (String.mk (List.replicate 256 'a')) none
        ⟨[]⟩ = Except.error StoreError.validationError ∧
    PipelineBaseModel.construct "abc" none ⟨[]⟩ =
        Except.ok ⟨"abc", none, ⟨[]⟩⟩ :=
  ⟨(pipeline_name_length_validation (String.mk (List.replicate 256 'a'))
      none ⟨[]⟩).1 (by decide),
   (pipeline_name_length_validation "abc" none ⟨[]⟩).2 (by decide)⟩

/-- Claim C9: for every StepRunInfo, StepEnvironment.pipeline_run_id returns
exactly the same value as StepEnvironment.run_name; the deprecated accessor
is an alias of the new one, differing only by a deprecation warning logged
to the side. -/
theorem pipeline_run_id_eq_run_name (env : StepEnvironment) :
    env.pipeline_run_id = env.run_name := rfl

/-- Claim C2: get_stack fails with NotFoundError for every identifier that
matches no stored stack; for every stored stack (under the invariant that
identifiers are unique) get_stack on its id returns the full resource,
never a partial or null result. -/
theorem get_stack_spec (s : Store) (stack_id : Nat) :
    ((∀ st ∈ s.stack_records, st.id ≠ stack_id) →
      get_stack s stack_id = Except.error StoreError.notFoundError) ∧
    ((s.stack_records.map StackRecord.id).Nodup →
      ∀ st ∈ s.stack_records, st.id = stack_id →
        get_stack s stack_id = Except.ok st) := by
  constructor
  · intro h
    have hf : s.stack_records.find? (fun st => st.id == stack_id) = none := by
      rw [List.find?_eq_none]
      intro st hst
      simpa using h st hst
    simp [get_stack, hf]
  · intro hnd st hst hid
    subst hid
    have hf := find_eq_some_of_nodup_keys StackRecord.id s.stack_records
      hnd st hst
    simp [get_stack, hf]

/-- Witness for C2: in a store holding exactly one stack with id 1,
get_stack 7 fails with NotFoundError and get_stack 1 returns the full
stack, by the get_stack theorem. -/
theorem get_stack_spec_witness :
    get_stack ⟨[1], [], [⟨1, "default", 1, 1, false, []⟩], [], []⟩ 7 =
      Except.error StoreError.notFoundError ∧
    get_stack ⟨[1], [], [⟨1, "default", 1, 1, false, []⟩], [], []⟩ 1 =
      Except.ok ⟨1, "default", 1, 1, false, []⟩ :=
  ⟨(get_stack_spec ⟨[1], [], [⟨1, "default", 1, 1, false, []⟩], [], []⟩ 7).1
      (by decide),
   (get_stack_spec ⟨[1], [], [⟨1, "default", 1, 1, false, []⟩], [], []⟩ 1).2
      (by decide) ⟨1, "default", 1, 1, false, []⟩ (by decide) rfl⟩

/-- Claim C3: deleting a stack component that is a member of at least one
stack fails with ConflictError (the error branch returns no new state, so
the store is unchanged); deleting a component that belongs to no stack
succeeds, removing exactly that component. -/
theorem delete_stack_component_spec (s : Store) (component_id : Nat) :
    ((∃ c ∈ s.components, c.id = component_id) →
      (∃ st ∈ s.stack_records, component_id ∈ st.components) →
      delete_stack_component s component_id =
        Except.error StoreError.conflictError) ∧
    ((∃ c ∈ s.components, c.id = component_id) →
      (∀ st ∈ s.stack_records, component_id ∉ st.components) →
      delete_stack_component s component_id =
        Except.ok { s with components :=
          s.components.filter (fun c => c.id != component_id) }) := by
  constructor
  · rintro ⟨c, hc, hcid⟩ ⟨st, hst, hmem⟩
    have hf : (s.components.find? (fun c => c.id == component_id)).isSome := by
      rw [List.find?_isSome]
      exact ⟨c, hc, by simp [hcid]⟩
    obtain ⟨c', hc'⟩ := Option.isSome_iff_exists.mp hf
    have hany : s.stack_records.any
        (fun st => st.components.contains component_id) = true := by
      rw [List.any_eq_true]
      exact ⟨st, hst, by simpa using hmem⟩
    simp only [delete_stack_component, hc', hany, if_true]
  · rintro ⟨c, hc, hcid⟩ hnomem
    have hf : (s.components.find? (fun c => c.id == component_id)).isSome := by
      rw [List.find?_isSome]
      exact ⟨c, hc, by simp [hcid]⟩
    obtain ⟨c', hc'⟩ := Option.isSome_iff_exists.mp hf
    have hany : s.stack_records.any
        (fun st => st.components.contains component_id) = false := by
      rw [List.any_eq_false]
      intro st hst
      simpa using hnomem st hst
    simp only [delete_stack_component, hc', hany, Bool.false_eq_true,
      if_false]

/-- Witness for C3: component 5 is in a stack, so deleting it fails with
ConflictError; component 6 is in no stack, so deleting it succeeds, by the
delete_stack_component theorem. -/
theorem delete_stack_component_spec_witness :
    delete_stack_component
      ⟨[1], [⟨5, "c", "orchestrator"⟩, ⟨6, "d", "artifact_store"⟩],
       [⟨1, "default", 1, 1, false, [5]⟩], [], []⟩ 5 =
      Except.error StoreError.conflictError ∧
    delete_stack_component
      ⟨[1], [⟨5, "c", "orchestrator"⟩, ⟨6, "d", "artifact_store"⟩],
       [⟨1, "default", 1, 1, false, [5]⟩], [], []⟩ 6 =
      Except.ok
        ⟨[1], [⟨5, "c", "orchestrator"⟩],
         [⟨1, "default", 1, 1, false, [5]⟩], [], []⟩ :=
  ⟨(delete_stack_component_spec
      ⟨[1], [⟨5, "c", "orchestrator"⟩, ⟨6, "d", "artifact_store"⟩],
       [⟨1, "default", 1, 1, false, [5]⟩], [], []⟩ 5).1
      (by decide) (by decide),
   (delete_stack_component_spec
      ⟨[1], [⟨5, "c", "orchestrator"⟩, ⟨6, "d", "artifact_store"⟩],
       [⟨1, "default", 1, 1, false, [5]⟩], [], []⟩ 6).2
      (by decide) (by decide)⟩

/-- Claim C4: renaming a stack to the name of another stack in the same
project and owner scope fails with EntityExistsError; the error branch
returns no new state, so no field of the original stack is mutated and in
particular its name afterwards equals its name before the call. -/
theorem update_stack_rename_conflict (s : Store) (u : StackUpdateModel)
    (S1 S2 : StackRecord)
    (hnd : (s.stack_records.map StackRecord.id).Nodup)
    (h1 : S1 ∈ s.stack_records) (h2 : S2 ∈ s.stack_records)
    (hne : S1.id ≠ S2.id)
    (hproj : S1.project = S2.project) (huser : S1.user = S2.user)
    (hname : u.name = some S2.name) :
    update_stack s S1.id u = Except.error StoreError.entityExistsError := by
  have hf := find_eq_some_of_nodup_keys StackRecord.id s.stack_records hnd S1 h1
  have h21 : S2.id ≠ S1.id := fun h => hne h.symm
  have hany : s.stack_records.any (fun o =>
      o.id != S1.id && o.project == S1.project &&
      o.user == S1.user && o.name == S2.name) = true := by
    rw [List.any_eq_true]
    refine ⟨S2, h2, ?_⟩
    simp [hproj, huser, h21]
  simp [update_stack, hf, hname, hany]

/-- Witness for C4: renaming stack 1 (named a) to b, the name of stack 2 in
the same project and owner scope, fails with EntityExistsError, by the
update_stack theorem. -/
theorem update_stack_rename_conflict_witness :
    update_stack
      ⟨[1], [], [⟨1, "a", 1, 1, false, []⟩, ⟨2, "b", 1, 1, false, []⟩],
       [], []⟩ 1 ⟨some "b", none, none⟩ =
      Except.error StoreError.entityExistsError :=
  update_stack_rename_conflict
    ⟨[1], [], [⟨1, "a", 1, 1, false, []⟩, ⟨2, "b", 1, 1, false, []⟩], [], []⟩
    ⟨some "b", none, none⟩
    ⟨1, "a", 1, 1, false, []⟩ ⟨2, "b", 1, 1, false, []⟩
    (by decide) (by decide) (by decide) (by decide) rfl rfl rfl

/-- Claim C5: deleting a pipeline with existing runs succeeds; every run
remains retrievable, and get_run returns the run record with its pipeline
reference nulled when it pointed at the deleted pipeline, all other fields
(name, status, configuration) unchanged. -/
theorem delete_pipeline_preserves_runs (s : Store) (P : PipelineRecord)
    (hP : P ∈ s.pipelines)
    (hnd : (s.runs.map PipelineRunRecord.id).Nodup) :
    ∃ s', delete_pipeline s P.id = Except.ok s' ∧
      ∀ r ∈ s.runs,
        get_run s' r.id = Except.ok
          { r with pipeline :=
              if r.pipeline == some P.id then none else r.pipeline } := by
  have hf : (s.pipelines.find? (fun p => p.id == P.id)).isSome := by
    rw [List.find?_isSome]
    exact ⟨P, hP, by simp⟩
  obtain ⟨q, hq⟩ := Option.isSome_iff_exists.mp hf
  refine ⟨{ s with
      pipelines := s.pipelines.filter (fun p => p.id != P.id)
      runs := s.runs.map (fun x =>
        if x.pipeline == some P.id then { x with pipeline := none }
        else x) }, ?_, ?_⟩
  · simp [delete_pipeline, hq]
  · intro r hr
    have hg : ∀ x : PipelineRunRecord, PipelineRunRecord.id
        (if x.pipeline == some P.id then { x with pipeline := none }
         else x) = PipelineRunRecord.id x := by
      intro x
      by_cases hx : (x.pipeline == some P.id) = true
      · simp [hx]
      · simp [hx]
    have hfind := find_map_eq_some_of_nodup_keys PipelineRunRecord.id
      (fun x => if x.pipeline == some P.id then { x with pipeline := none }
        else x) hg s.runs hnd r hr
    have hok := get_run_eq_ok_of_find { s with
      pipelines := s.pipelines.filter (fun p => p.id != P.id)
      runs := s.runs.map (fun x =>
        if x.pipeline == some P.id then { x with pipeline := none }
        else x) } r.id _ hfind
    rw [hok]
    by_cases hc : (r.pipeline == some P.id) = true
    · simp [hc]
    · simp [hc]

/-- Witness for C5: deleting pipeline 1 in a store with two runs (one
pointing at pipeline 1, one at pipeline 2) succeeds and every run stays
retrievable with its pipeline reference nulled exactly when it pointed at
pipeline 1, by the delete_pipeline theorem. -/
theorem delete_pipeline_preserves_runs_witness :
    ∃ s', delete_pipeline
        ⟨[1], [], [], [⟨1, "p", 1⟩],
         [⟨10, "r1", ExecutionStatus.completed, "cfg", some 1, some 3⟩,
          ⟨11, "r2", ExecutionStatus.failed, "cfg2", some 2, none⟩]⟩ 1 =
        Except.ok s' ∧
      ∀ r ∈ ([⟨10, "r1", ExecutionStatus.completed, "cfg", some 1, some 3⟩,
              ⟨11, "r2", ExecutionStatus.failed, "cfg2", some 2, none⟩] :
             List PipelineRunRecord),
        get_run s' r.id = Except.ok
          { r with pipeline :=
              if r.pipeline == some 1 then none else r.pipeline } :=
  delete_pipeline_preserves_runs
    ⟨[1], [], [], [⟨1, "p", 1⟩],
     [⟨10, "r1", ExecutionStatus.completed, "cfg", some 1, some 3⟩,
      ⟨11, "r2", ExecutionStatus.failed, "cfg2", some 2, none⟩]⟩
    ⟨1, "p", 1⟩ (by decide) (by decide)

/-- Counterexample for C7: in a store holding project 1 and one stack in
it, the filter naming the nonexistent project 2 has fields matching no
stored stack, yet list_stacks raises NotFoundError (KeyError per the
source docstring of list_stacks) instead of returning an empty page. -/
theorem list_stacks_nonexistent_project_counterexample :
    (∀ st ∈ (⟨[1], [], [⟨1, "default", 1, 1, false, []⟩], [], []⟩ :
        Store).stack_records,
      stackMatchesFilter ⟨some 2, none, none, none, none⟩ st = false) ∧
    list_stacks ⟨[1], [], [⟨1, "default", 1, 1, false, []⟩], [], []⟩
      ⟨some 2, none, none, none, none⟩ =
      Except.error StoreError.notFoundError := by
  constructor
  · decide
  · rfl

/-- Claim C7 as amended: a filter whose every set field references existing
scope (its project, when set, exists) and matches no stored stack yields
an empty list and no error; absent filter fields impose no constraint, so
the all-absent filter returns every stack; but a filter naming a
nonexistent project raises NotFoundError (KeyError), per the source
docstring of list_stacks. -/
theorem list_stacks_amended_spec (s : Store) (f : StackFilterModel) :
    ((∀ p, f.project = some p → p ∈ s.projects) →
      (∀ st ∈ s.stack_records, stackMatchesFilter f st = false) →
      list_stacks s f = Except.ok []) ∧
    (list_stacks s ⟨none, none, none, none, none⟩ =
      Except.ok s.stack_records) ∧
    (∀ p, f.project = some p → p ∉ s.projects →
      list_stacks s f = Except.error StoreError.notFoundError) := by
  refine ⟨?_, ?_, ?_⟩
  · intro hproj hmatch
    have hfil : s.stack_records.filter (stackMatchesFilter f) = [] := by
      rw [List.filter_eq_nil_iff]
      intro st hst
      simp [hmatch st hst]
    cases hp : f.project with
    | none => simp [list_stacks, hp, hfil]
    | some p =>
        have hmem : p ∈ s.projects := hproj p hp
        have hcon : s.projects.contains p = true := by
          simpa using hmem
        simp only [list_stacks, hp, hcon, if_true, hfil]
  · have hall : s.stack_records.filter
        (stackMatchesFilter ⟨none, none, none, none, none⟩) =
        s.stack_records := by
      rw [List.filter_eq_self]
      intro st _
      simp [stackMatchesFilter]
    simp [list_stacks, hall]
  · intro p hp hnmem
    have hcon : s.projects.contains p = false := by
      simpa using hnmem
    simp only [list_stacks, hp, hcon, Bool.false_eq_true, if_false]

/-- Witness for C7 as amended: a name filter matching nothing yields an
empty list, the all-absent filter returns the one stored stack, and the
filter naming nonexistent project 2 raises NotFoundError, all by the
amended list_stacks theorem. -/
theorem list_stacks_amended_spec_witness :
    list_stacks ⟨[1], [], [⟨1, "default", 1, 1, false, []⟩], [], []⟩
      ⟨none, none, none, some "missing", none⟩ = Except.ok [] ∧
    list_stacks ⟨[1], [], [⟨1, "default", 1, 1, false, []⟩], [], []⟩
      ⟨none, none, none, none, none⟩ =
      Except.ok [⟨1, "default", 1, 1, false, []⟩] ∧
    list_stacks ⟨[1], [], [⟨1, "default", 1, 1, false, []⟩], [], []⟩
      ⟨some 2, none, none, none, none⟩ =
      Except.error StoreError.notFoundError :=
  ⟨(list_stacks_amended_spec
      ⟨[1], [], [⟨1, "default", 1, 1, false, []⟩], [], []⟩
      ⟨none, none, none, some "missing", none⟩).1 (by decide) (by decide),
   (list_stacks_amended_spec
      ⟨[1], [], [⟨1, "default", 1, 1, false, []⟩], [], []⟩
      ⟨none, none, none, some "missing", none⟩).2.1,
   (list_stacks_amended_spec
      ⟨[1], [], [⟨1, "default", 1, 1, false, []⟩], [], []⟩
      ⟨some 2, none, none, none, none⟩).2.2 2 rfl (by decide)⟩

/-- Claim C8: the lineage graph builder is idempotent on a run state: two
invocations on the same StepRuns and Artifacts, in any construction order,
return structurally identical graphs, with the same node set and the same
edge set. -/
theorem lineage_graph_order_independent (steps1 steps2 : List StepRunRecord)
    (h : steps1.Perm steps2) :
    (generate_run_nodes_and_edges steps1).nodes.toFinset =
      (generate_run_nodes_and_edges steps2).nodes.toFinset ∧
    (generate_run_nodes_and_edges steps1).edges.toFinset =
      (generate_run_nodes_and_edges steps2).edges.toFinset :=
  ⟨List.toFinset_eq_of_perm _ _ (h.flatMap_right _),
   List.toFinset_eq_of_perm _ _ (h.flatMap_right _)⟩

/-- Witness for C8: the two construction orders of the run with steps A
(produces artifact 10) and B (consumes artifact 10) yield the same node
set and the same edge set, by the order-independence theorem. -/
theorem lineage_graph_order_independent_witness :
    (generate_run_nodes_and_edges [⟨0, [], [10]⟩, ⟨1, [10], []⟩]).nodes.toFinset =
      (generate_run_nodes_and_edges [⟨1, [10], []⟩, ⟨0, [], [10]⟩]).nodes.toFinset ∧
    (generate_run_nodes_and_edges [⟨0, [], [10]⟩, ⟨1, [10], []⟩]).edges.toFinset =
      (generate_run_nodes_and_edges [⟨1, [10], []⟩, ⟨0, [], [10]⟩]).edges.toFinset :=
  lineage_graph_order_independent [⟨0, [], [10]⟩, ⟨1, [10], []⟩]
    [⟨1, [10], []⟩, ⟨0, [], [10]⟩] (by decide)

end ZenML
